import Mathlib

/-
Verification of the RealSense gaze recorder (src/main.cpp) against its
natural-language specification.  The program is a small SDL application:
a four-state UI state machine (PRE / RECORDING / DONE / QUIT), a
piecewise-linear "choreography" giving the on-screen target position as a
function of elapsed recording time, and a background capture-loop thread
that repeatedly acquires and releases camera frames while the state is
RECORDING.  Everything below is a shallow embedding of that code: doubles
become exact rationals, SDL tick counts become naturals (the non-wrapping
regime of Uint32 arithmetic, valid while the clock is monotone within a
run), and the two threads become explicit functions of their schedules.
-/

namespace GazeRec

/-- The four UI states of the state machine, src/main.cpp lines 108-113. -/
inductive State
  | PRE
  | RECORDING
  | DONE
  | QUIT
deriving DecidableEq

/-- The event kinds the poll loop distinguishes (lines 124-157):
SDL_KEYUP, SDL_QUIT, and every other event type (ignored). -/
inductive Event
  | KEYUP
  | QUIT
  | OTHER

/-- The main thread's per-run mutable locals (lines 113-119): the state
enum and the recording start tick `t0`, together with instrumentation of
the `record_thread` std::thread lifecycle: `spawns` counts thread
constructions (line 132), `joins` counts join calls (line 183), and
`threadAlive` tells whether a constructed thread is still joinable. -/
structure Session where
  state : State
  t0 : Nat
  spawns : Nat
  joins : Nat
  threadAlive : Bool

/-- The freshly initialised locals of `main` before the loop: state is
STATE_PRE, `t0 = 0`, no thread ever constructed. -/
def initialSession : Session :=
  { state := State.PRE, t0 := 0, spawns := 0, joins := 0, threadAlive := false }

/-- Line 46: `lerp(t, x0, x1, t0, t1) = x0 + (t - t0) / (t1 - t0) * (x1 - x0)`. -/
def lerp (t x0 x1 u0 u1 : ℚ) : ℚ := x0 + (t - u0) / (u1 - u0) * (x1 - x0)

/-- The position computation of lines 161-179 for a RECORDING frame, as a
function of the elapsed time `t` in seconds: `x` and `y` are initialised
to `0.01` (line 161) and each branch of the if-chain assigns exactly the
one coordinate the code assigns, leaving the other at its default. -/
def choreography (t : ℚ) : ℚ × ℚ :=
  if 0 ≤ t ∧ t < 3 then (lerp t (1/100) (99/100) 0 3, 1/100)
  else if 3 ≤ t ∧ t < 5 then (1/100, lerp t (1/100) (99/100) 3 5)
  else if 5 ≤ t ∧ t < 8 then (lerp t (99/100) (1/100) 5 8, 1/100)
  else if 8 ≤ t ∧ t < 10 then (1/100, lerp t (99/100) (1/100) 8 10)
  else (1/100, 1/100)

/-- The four-segment target-position table exactly as the specification
writes it (spec section 4.1), for comparison with `choreography`:
each segment pins one coordinate to an edge (0.99 or 0.01) while the
other is interpolated, so consecutive segments meet continuously. -/
def specChoreography (t : ℚ) : ℚ × ℚ :=
  if 0 ≤ t ∧ t < 3 then (lerp t (1/100) (99/100) 0 3, 1/100)
  else if 3 ≤ t ∧ t < 5 then (99/100, lerp t (1/100) (99/100) 3 5)
  else if 5 ≤ t ∧ t < 8 then (lerp t (99/100) (1/100) 5 8, 99/100)
  else if 8 ≤ t ∧ t < 10 then (1/100, lerp t (99/100) (1/100) 8 10)
  else (1/100, 1/100)

/-- Line 165: `t = 0.001*(SDL_GetTicks() - t0)`, elapsed seconds since the
recording started (ticks are milliseconds; subtraction is the
non-wrapping case of Uint32 arithmetic, i.e. `t0 ≤ now`). -/
def elapsedSec (s : Session) (now : Nat) : ℚ := ((now - s.t0 : ℕ) : ℚ) / 1000

/-- Lines 160-185: the per-frame position update.  Outside RECORDING the
position keeps its initialisation `(0.01, 0.01)`; in RECORDING the
if-chain on `t` either computes the choreography position or, in the
final else (reached exactly when `t ≥ 10`), switches the state to DONE
and joins the capture thread.  Returns the updated session and the
position `(x, y)` used by the subsequent rendering. -/
def updateFrame (s : Session) (now : Nat) : Session × ℚ × ℚ :=
  if s.state = State.RECORDING then
    if 0 ≤ elapsedSec s now ∧ elapsedSec s now < 3 then
      (s, lerp (elapsedSec s now) (1/100) (99/100) 0 3, 1/100)
    else if 3 ≤ elapsedSec s now ∧ elapsedSec s now < 5 then
      (s, 1/100, lerp (elapsedSec s now) (1/100) (99/100) 3 5)
    else if 5 ≤ elapsedSec s now ∧ elapsedSec s now < 8 then
      (s, lerp (elapsedSec s now) (99/100) (1/100) 5 8, 1/100)
    else if 8 ≤ elapsedSec s now ∧ elapsedSec s now < 10 then
      (s, 1/100, lerp (elapsedSec s now) (99/100) (1/100) 8 10)
    else ({ s with state := State.DONE, joins := s.joins + 1, threadAlive := false },
          1/100, 1/100)
  else (s, 1/100, 1/100)

/-- The pure target-position function of `(state, elapsed seconds)` that
lines 160-185 implement: the choreography while RECORDING, the resting
position `(0.01, 0.01)` otherwise. -/
def framePos (st : State) (t : ℚ) : ℚ × ℚ :=
  if st = State.RECORDING then choreography t else (1/100, 1/100)

/-- Lines 125-157: the effect of one polled event on the session.
A key-up in PRE starts recording: `t0 = SDL_GetTicks()` and the capture
thread is constructed (spawned); a key-up in DONE, or a quit event in any
state, moves to QUIT; everything else is ignored. -/
def handleEvent (s : Session) (now : Nat) (e : Event) : Session :=
  match e with
  | Event.KEYUP =>
    if s.state = State.PRE then
      { s with state := State.RECORDING, t0 := now,
               spawns := s.spawns + 1, threadAlive := true }
    else if s.state = State.DONE then { s with state := State.QUIT }
    else s
  | Event.QUIT => { s with state := State.QUIT }
  | Event.OTHER => s

/-- Lines 124-158: drain the pending event queue.  The two branches that
set STATE_QUIT `break` out of the poll loop, leaving later queued events
unprocessed; this is modelled by stopping as soon as the state is QUIT
(the loop is only entered with a non-QUIT state). -/
def pollEvents (s : Session) (now : Nat) : List Event → Session
  | [] => s
  | e :: rest =>
    let s2 := handleEvent s now e
    if s2.state = State.QUIT then s2 else pollEvents s2 now rest

/-- One iteration of `main`'s frame: the events delivered this frame and
the SDL tick count at which the frame runs. -/
structure Frame where
  events : List Event
  now : Nat

/-- One iteration of the while loop (lines 122-208): drain events, then
run the position/state update.  Returns the session after the update and
the position rendered this frame. -/
def stepFrame (s : Session) (f : Frame) : Session × ℚ × ℚ :=
  updateFrame (pollEvents s f.now f.events) f.now

/-- The main loop (lines 122-208) run over a finite schedule of frames:
the `while (state != STATE_QUIT)` guard is checked before each iteration;
when the schedule is exhausted the current session is returned. -/
def mainLoop (s : Session) : List Frame → Session
  | [] => s
  | f :: rest =>
    if s.state = State.QUIT then s else mainLoop (stepFrame s f).1 rest

/-- What `pxc_verify` (lines 213-222) does with a pxcStatus, modelled as
an Int with PXC_STATUS_NO_ERROR = 0: a negative (fatal) status shows an
error box and returns false; a positive (warning) status shows a warning
box but returns true; zero returns true silently. -/
structure VerifyResult where
  ok : Bool
  boxShown : Bool

/-- Lines 213-222. -/
def pxc_verify (ret : Int) : VerifyResult :=
  if ret < 0 then { ok := false, boxShown := true }
  else if 0 < ret then { ok := true, boxShown := true }
  else { ok := true, boxShown := false }

/-- The observable actions of the capture thread: a read of the shared
state, an AcquireFrame call (with the status it returned), a
ReleaseFrame call. -/
inductive CapAction
  | check (sv : State)
  | acquire (status : Int)
  | release

/-- The capture thread body (lines 132-145), driven by a finite schedule
that supplies, for each iteration, the state value the `*pstate` check
reads and the status the AcquireFrame call returns:
`while (*pstate == STATE_RECORDING) { AcquireFrame; if fatal break;
ReleaseFrame; }`.  The trace of actions it performs is returned. -/
def record_thread : List (State × Int) → List CapAction
  | [] => []
  | (sv, st) :: rest =>
    CapAction.check sv ::
      (if sv = State.RECORDING then
        CapAction.acquire st ::
          (if (pxc_verify st).ok then CapAction.release :: record_thread rest
           else [])
      else [])

/-- Whether a capture-thread action is an AcquireFrame call. -/
def isAcquire : CapAction → Bool
  | CapAction.acquire _ => true
  | _ => false

/-- Number of AcquireFrame calls the capture thread performs on a given
schedule. -/
def numAcquires (obs : List (State × Int)) : Nat :=
  ((record_thread obs).filter isAcquire).length

/-- A capture-thread schedule for reasoning about the handoff with the
main thread: the thread's i-th state check executes at global time `c i`,
the main thread leaves RECORDING at time `T`, every check reads the
current value of the shared state (RECORDING exactly while the check time
is before `T`), and every acquire succeeds with status 0. -/
def mkObs (c : Nat → Nat) (T : Nat) : Nat → List (State × Int)
  | 0 => []
  | n + 1 =>
    ((if c 0 < T then State.RECORDING else State.DONE), (0 : Int)) ::
      mkObs (fun i => c (i + 1)) T n

/-- The startup sequence's external outcomes (lines 50-104): which of the
fallible initialisation steps succeed in this run. -/
structure StartupEnv where
  sdlInitOk : Bool
  ttfInitOk : Bool
  imgInitPngOk : Bool
  realsenseOk : Bool
  windowOk : Bool
  fontOk : Bool
  textsOk : Bool
  mrpointSurfOk : Bool
  mrpointTexOk : Bool

/-- A run in which every startup step succeeds. -/
def allOk : StartupEnv :=
  { sdlInitOk := true, ttfInitOk := true, imgInitPngOk := true,
    realsenseOk := true, windowOk := true, fontOk := true, textsOk := true,
    mrpointSurfOk := true, mrpointTexOk := true }

/-- Lines 50-104: the early-return chain of `main`.  `some c` means the
process exits with code `c` before the main loop; `none` means startup
completed and the main loop is reached. -/
def mainStartup (env : StartupEnv) : Option Nat :=
  if !env.sdlInitOk then some 1
  else if !env.ttfInitOk then some 1
  else if !env.imgInitPngOk then some 1
  else if !env.realsenseOk then some 2
  else if !env.windowOk then some 3
  else if !env.fontOk then some 4
  else if !env.textsOk then some 5
  else if !env.mrpointSurfOk then some 6
  else if !env.mrpointTexOk then some 6
  else none

/-- The whole process (lines 48-211): a failed startup step exits with its
code; otherwise the main loop runs over the frame schedule and `main`
returns 0 (line 210). -/
def programExit (env : StartupEnv) (frames : List Frame) : Nat :=
  match mainStartup env with
  | some c => c
  | none =>
    let _fin := mainLoop initialSession frames
    0

/-- A scripted interactive run: a key press at tick 0 starts the
recording, two frames render during it, the frame at tick 10000 reaches
the 10-second mark, and a key press at tick 11000 quits from DONE. -/
def normalRunFrames : List Frame :=
  [⟨[Event.KEYUP], 0⟩, ⟨[], 5000⟩, ⟨[], 10000⟩, ⟨[Event.KEYUP], 11000⟩]


/-
Helper lemmas shared by the theorems below.  The evaluation lemmas keep
proof terms small by rewriting with one branch of a definition at a time
instead of unfolding whole definitions inside large goals.
-/

/-- Unfolding one iteration of the main loop when the guard passes. -/
lemma mainLoop_cons (s : Session) (f : Frame) (rest : List Frame)
    (h : ¬ s.state = State.QUIT) :
    mainLoop s (f :: rest) = mainLoop (stepFrame s f).1 rest := by
  simp [mainLoop, h]

/-- The elapsed time is never negative (tick counts are naturals). -/
lemma elapsedSec_nonneg (s : Session) (now : Nat) : (0 : ℚ) ≤ elapsedSec s now := by
  unfold elapsedSec
  positivity

/-- A time at or beyond a segment's right end is outside the segment. -/
lemma seg_out (x y t : ℚ) (h : y ≤ t) : ¬ (x ≤ t ∧ t < y) :=
  fun hc => absurd h (not_le.mpr hc.2)

/-- 3 ≤ t follows from 5 ≤ t. -/
lemma le_three (t : ℚ) (h : 5 ≤ t) : (3 : ℚ) ≤ t := le_trans (by norm_num) h

/-- 5 ≤ t follows from 8 ≤ t. -/
lemma le_five (t : ℚ) (h : 8 ≤ t) : (5 : ℚ) ≤ t := le_trans (by norm_num) h

/-- 8 ≤ t follows from 10 ≤ t. -/
lemma le_eight (t : ℚ) (h : 10 ≤ t) : (8 : ℚ) ≤ t := le_trans (by norm_num) h

/-- First choreography branch, t in [0,3). -/
lemma choreography_seg1 (t : ℚ) (h0 : 0 ≤ t) (hb : t < 3) :
    choreography t = (lerp t (1/100) (99/100) 0 3, 1/100) :=
  if_pos ⟨h0, hb⟩

/-- Second choreography branch, t in [3,5). -/
lemma choreography_seg2 (t : ℚ) (ha : 3 ≤ t) (hb : t < 5) :
    choreography t = (1/100, lerp t (1/100) (99/100) 3 5) :=
  (if_neg (seg_out 0 3 t ha)).trans (if_pos ⟨ha, hb⟩)

/-- Third choreography branch, t in [5,8). -/
lemma choreography_seg3 (t : ℚ) (ha : 5 ≤ t) (hb : t < 8) :
    choreography t = (lerp t (99/100) (1/100) 5 8, 1/100) :=
  (if_neg (seg_out 0 3 t (le_three t ha))).trans
    ((if_neg (seg_out 3 5 t ha)).trans (if_pos ⟨ha, hb⟩))

/-- Fourth choreography branch, t in [8,10). -/
lemma choreography_seg4 (t : ℚ) (ha : 8 ≤ t) (hb : t < 10) :
    choreography t = (1/100, lerp t (99/100) (1/100) 8 10) :=
  (if_neg (seg_out 0 3 t (le_three t (le_five t ha)))).trans
    ((if_neg (seg_out 3 5 t (le_five t ha))).trans
      ((if_neg (seg_out 5 8 t ha)).trans (if_pos ⟨ha, hb⟩)))

/-- Choreography past the 10-second mark: default position. -/
lemma choreography_past (t : ℚ) (h : 10 ≤ t) :
    choreography t = (1/100, 1/100) :=
  (if_neg (seg_out 0 3 t (le_three t (le_five t (le_eight t h))))).trans
    ((if_neg (seg_out 3 5 t (le_five t (le_eight t h)))).trans
      ((if_neg (seg_out 5 8 t (le_eight t h))).trans
        (if_neg (seg_out 8 10 t h))))

/-- Second branch of the spec table, t in [3,5). -/
lemma specChoreography_seg2 (t : ℚ) (ha : 3 ≤ t) (hb : t < 5) :
    specChoreography t = (99/100, lerp t (1/100) (99/100) 3 5) :=
  (if_neg (seg_out 0 3 t ha)).trans (if_pos ⟨ha, hb⟩)

/-- Third branch of the spec table, t in [5,8). -/
lemma specChoreography_seg3 (t : ℚ) (ha : 5 ≤ t) (hb : t < 8) :
    specChoreography t = (lerp t (99/100) (1/100) 5 8, 99/100) :=
  (if_neg (seg_out 0 3 t (le_three t ha))).trans
    ((if_neg (seg_out 3 5 t ha)).trans (if_pos ⟨ha, hb⟩))

/-- Frame update outside RECORDING: no effect, resting position. -/
lemma updateFrame_not_recording (s : Session) (now : Nat)
    (h : ¬ s.state = State.RECORDING) :
    updateFrame s now = (s, 1/100, 1/100) :=
  if_neg h

/-- Frame update in RECORDING with elapsed time in [0,3). -/
lemma updateFrame_seg1 (s : Session) (now : Nat) (h : s.state = State.RECORDING)
    (hb : elapsedSec s now < 3) :
    updateFrame s now = (s, lerp (elapsedSec s now) (1/100) (99/100) 0 3, 1/100) :=
  (if_pos h).trans (if_pos ⟨elapsedSec_nonneg s now, hb⟩)

/-- Frame update in RECORDING with elapsed time in [3,5). -/
lemma updateFrame_seg2 (s : Session) (now : Nat) (h : s.state = State.RECORDING)
    (ha : 3 ≤ elapsedSec s now) (hb : elapsedSec s now < 5) :
    updateFrame s now = (s, 1/100, lerp (elapsedSec s now) (1/100) (99/100) 3 5) :=
  (if_pos h).trans
    ((if_neg (seg_out 0 3 (elapsedSec s now) ha)).trans (if_pos ⟨ha, hb⟩))

/-- Frame update in RECORDING with elapsed time in [5,8). -/
lemma updateFrame_seg3 (s : Session) (now : Nat) (h : s.state = State.RECORDING)
    (ha : 5 ≤ elapsedSec s now) (hb : elapsedSec s now < 8) :
    updateFrame s now = (s, lerp (elapsedSec s now) (99/100) (1/100) 5 8, 1/100) :=
  (if_pos h).trans
    ((if_neg (seg_out 0 3 (elapsedSec s now) (le_three (elapsedSec s now) ha))).trans
      ((if_neg (seg_out 3 5 (elapsedSec s now) ha)).trans (if_pos ⟨ha, hb⟩)))

/-- Frame update in RECORDING with elapsed time in [8,10). -/
lemma updateFrame_seg4 (s : Session) (now : Nat) (h : s.state = State.RECORDING)
    (ha : 8 ≤ elapsedSec s now) (hb : elapsedSec s now < 10) :
    updateFrame s now = (s, 1/100, lerp (elapsedSec s now) (99/100) (1/100) 8 10) :=
  (if_pos h).trans
    ((if_neg (seg_out 0 3 (elapsedSec s now)
        (le_three (elapsedSec s now) (le_five (elapsedSec s now) ha)))).trans
      ((if_neg (seg_out 3 5 (elapsedSec s now) (le_five (elapsedSec s now) ha))).trans
        ((if_neg (seg_out 5 8 (elapsedSec s now) ha)).trans (if_pos ⟨ha, hb⟩))))

/-- Frame update in RECORDING at or past the 10-second mark: switch to
DONE and join the capture thread. -/
lemma updateFrame_past (s : Session) (now : Nat) (h : s.state = State.RECORDING)
    (h10 : 10 ≤ elapsedSec s now) :
    updateFrame s now = (⟨State.DONE, s.t0, s.spawns, s.joins + 1, false⟩, 1/100, 1/100) :=
  (if_pos h).trans
    ((if_neg (seg_out 0 3 (elapsedSec s now) (le_three (elapsedSec s now)
        (le_five (elapsedSec s now) (le_eight (elapsedSec s now) h10))))).trans
      ((if_neg (seg_out 3 5 (elapsedSec s now)
          (le_five (elapsedSec s now) (le_eight (elapsedSec s now) h10)))).trans
        ((if_neg (seg_out 5 8 (elapsedSec s now)
            (le_eight (elapsedSec s now) h10))).trans
          (if_neg (seg_out 8 10 (elapsedSec s now) h10)))))

/-- The position produced by the frame update is exactly `framePos` of the
pair (state, elapsed seconds). -/
lemma updateFrame_pos (s : Session) (now : Nat) :
    (updateFrame s now).2 = framePos s.state (elapsedSec s now) := by
  unfold framePos
  by_cases h : s.state = State.RECORDING
  · rw [if_pos h]
    by_cases h3 : elapsedSec s now < 3
    · rw [updateFrame_seg1 s now h h3,
          choreography_seg1 (elapsedSec s now) (elapsedSec_nonneg s now) h3]
    · by_cases h5 : elapsedSec s now < 5
      · rw [updateFrame_seg2 s now h (not_lt.mp h3) h5,
            choreography_seg2 (elapsedSec s now) (not_lt.mp h3) h5]
      · by_cases h8 : elapsedSec s now < 8
        · rw [updateFrame_seg3 s now h (not_lt.mp h5) h8,
              choreography_seg3 (elapsedSec s now) (not_lt.mp h5) h8]
        · by_cases h10 : elapsedSec s now < 10
          · rw [updateFrame_seg4 s now h (not_lt.mp h8) h10,
                choreography_seg4 (elapsedSec s now) (not_lt.mp h8) h10]
          · rw [updateFrame_past s now h (not_lt.mp h10),
                choreography_past (elapsedSec s now) (not_lt.mp h10)]
  · rw [if_neg h, updateFrame_not_recording s now h]

/-
Claim C1.  The spec's four-segment table pins the non-interpolated
coordinate of each segment to the near edge (x = 0.99 on [3,5), y = 0.99
on [5,8)); the code instead leaves that coordinate at its default 0.01
(line 161), because each branch of the if-chain assigns only one of the
two coordinates.  The target therefore does not follow the specified
border tour: at t = 4 the code puts the dot at x = 0.01 where the table
requires x = 0.99, and at t = 6 at y = 0.01 where the table requires
y = 0.99.
-/

/-- Claim C1: during recording the code's target position disagrees with
the spec's four-segment table on the second and third segments: at t = 4
the code yields x = 0.01 while the table requires x = 0.99, and at t = 6
the code yields y = 0.01 while the table requires y = 0.99. -/
theorem choreography_deviates_from_spec_table :
    (choreography 4).1 = 1/100 ∧ (specChoreography 4).1 = 99/100 ∧
    (choreography 6).2 = 1/100 ∧ (specChoreography 6).2 = 99/100 := by
  refine ⟨?_, ?_, ?_, ?_⟩
  · rw [choreography_seg2 4 (by norm_num) (by norm_num)]
  · rw [specChoreography_seg2 4 (by norm_num) (by norm_num)]
  · rw [choreography_seg3 6 (by norm_num) (by norm_num)]
  · rw [specChoreography_seg3 6 (by norm_num) (by norm_num)]

/-
Claim C3.  The bounds part of the claim holds, but continuity at the
segment boundaries fails on the code: approaching t = 3 from below the
position tends to (0.99, 0.01) while the position at t = 3 is
(0.01, 0.01); similar jumps of magnitude about 0.98 occur at t = 5 and
t = 8.  The theorem exhibits the jumps 0.1 s before each boundary.
-/

/-- Claim C3: the code's target position is discontinuous at each segment
boundary: the x coordinate drops by more than 0.9 across t = 3, the y
coordinate drops by more than 0.9 across t = 5, and the y coordinate
rises by more than 0.9 across t = 8 (comparing the value 0.1 s below each
boundary with the value at the boundary). -/
theorem choreography_discontinuous_at_boundaries :
    (9/10 : ℚ) < (choreography (29/10)).1 - (choreography 3).1 ∧
    (9/10 : ℚ) < (choreography (49/10)).2 - (choreography 5).2 ∧
    (9/10 : ℚ) < (choreography 8).2 - (choreography (79/10)).2 := by
  refine ⟨?_, ?_, ?_⟩
  · rw [choreography_seg1 (29/10) (by norm_num) (by norm_num),
        choreography_seg2 3 (by norm_num) (by norm_num)]
    norm_num [lerp]
  · rw [choreography_seg2 (49/10) (by norm_num) (by norm_num),
        choreography_seg3 5 (by norm_num) (by norm_num)]
    norm_num [lerp]
  · rw [choreography_seg4 8 (by norm_num) (by norm_num),
        choreography_seg3 (79/10) (by norm_num) (by norm_num)]
    norm_num [lerp]

/-
Claim C4.  Lines 164-184: the if-chain on t covers [0, 10) with the four
choreography segments, none of which touches the state, and the final
else (reached exactly when t ≥ 10, since t ≥ 0 always) switches to
STATE_DONE and joins the capture thread.
-/

/-- Claim C4: while the state is RECORDING the frame update leaves the
session untouched as long as the elapsed time is below 10 seconds, and on
any frame whose elapsed time is at least 10 seconds it switches the state
to DONE and joins the capture thread. -/
theorem recording_to_done_exactly_at_ten (s : Session) (now : Nat)
    (hrec : s.state = State.RECORDING) :
    (elapsedSec s now < 10 → (updateFrame s now).1 = s) ∧
    (10 ≤ elapsedSec s now →
      (updateFrame s now).1.state = State.DONE ∧
      (updateFrame s now).1.joins = s.joins + 1 ∧
      (updateFrame s now).1.threadAlive = false) := by
  constructor
  · intro hlt
    by_cases h3 : elapsedSec s now < 3
    · rw [updateFrame_seg1 s now hrec h3]
    · by_cases h5 : elapsedSec s now < 5
      · rw [updateFrame_seg2 s now hrec (not_lt.mp h3) h5]
      · by_cases h8 : elapsedSec s now < 8
        · rw [updateFrame_seg3 s now hrec (not_lt.mp h5) h8]
        · rw [updateFrame_seg4 s now hrec (not_lt.mp h8) hlt]
  · intro hge
    rw [updateFrame_past s now hrec hge]
    exact ⟨rfl, rfl, rfl⟩

/-- Witness for C4: a session that has been recording since tick 0,
rendered at tick 10000, transitions to DONE and joins the thread. -/
theorem recording_to_done_exactly_at_ten_witness :
    (updateFrame ⟨State.RECORDING, 0, 1, 0, true⟩ 10000).1.state = State.DONE ∧
    (updateFrame ⟨State.RECORDING, 0, 1, 0, true⟩ 10000).1.joins = 0 + 1 ∧
    (updateFrame ⟨State.RECORDING, 0, 1, 0, true⟩ 10000).1.threadAlive = false :=
  (recording_to_done_exactly_at_ten ⟨State.RECORDING, 0, 1, 0, true⟩ 10000 rfl).2
    (by norm_num [elapsedSec])

/-
Claim C9.  Lines 160-185 reinitialise x and y every frame (line 161) and
compute them only from the state and `0.001*(SDL_GetTicks() - t0)`; no
previous-frame position exists to feed back.
-/

/-- Claim C9: the rendered position of a frame is a pure function of the
pair (state, elapsed seconds): it factors through `framePos`, and any two
frame updates run from sessions with equal state and equal elapsed time
produce identical positions, whatever the remaining session fields and
tick counts are. -/
theorem position_pure_in_state_and_elapsed (s s2 : Session) (now now2 : Nat)
    (hst : s.state = s2.state) (ht : elapsedSec s now = elapsedSec s2 now2) :
    (updateFrame s now).2 = framePos s.state (elapsedSec s now) ∧
    (updateFrame s now).2 = (updateFrame s2 now2).2 := by
  refine ⟨updateFrame_pos s now, ?_⟩
  rw [updateFrame_pos s now, updateFrame_pos s2 now2, hst, ht]

/-- Witness for C9: two recording sessions with different start ticks and
different current ticks but the same elapsed time render the same
position. -/
theorem position_pure_in_state_and_elapsed_witness :
    (updateFrame ⟨State.RECORDING, 0, 1, 0, true⟩ 2000).2 =
      (updateFrame ⟨State.RECORDING, 5000, 7, 3, true⟩ 7000).2 :=
  (position_pure_in_state_and_elapsed ⟨State.RECORDING, 0, 1, 0, true⟩
    ⟨State.RECORDING, 5000, 7, 3, true⟩ 2000 7000 rfl (by norm_num [elapsedSec])).2

/-
Claim C10.  Lines 125-157: a key-up is acted on only in STATE_PRE and
STATE_DONE, so in STATE_RECORDING it falls through both branches; any
event that is neither SDL_KEYUP nor SDL_QUIT reaches the final comment
(line 157) and is ignored in every state.
-/

/-- Claim C10: a key-up received while recording leaves the session
unchanged (no state change, no new start time, no extra thread), and any
event other than key-up and quit leaves every session unchanged. -/
theorem events_ignored_while_recording (s : Session) (now : Nat) (e : Event)
    (hrec : s.state = State.RECORDING)
    (hk : e ≠ Event.KEYUP) (hq : e ≠ Event.QUIT) :
    handleEvent s now Event.KEYUP = s ∧
    ∀ (s2 : Session) (n2 : Nat), handleEvent s2 n2 e = s2 := by
  constructor
  · simp [handleEvent, hrec]
  · intro s2 n2
    cases e with
    | KEYUP => exact absurd rfl hk
    | QUIT => exact absurd rfl hq
    | OTHER => rfl

/-- Witness for C10: a key-up during recording and a motion-like other
event both leave a concrete recording session unchanged. -/
theorem events_ignored_while_recording_witness :
    handleEvent ⟨State.RECORDING, 42, 1, 0, true⟩ 999 Event.KEYUP =
      ⟨State.RECORDING, 42, 1, 0, true⟩ ∧
    handleEvent ⟨State.PRE, 0, 0, 0, false⟩ 5 Event.OTHER = ⟨State.PRE, 0, 0, 0, false⟩ := by
  have h := events_ignored_while_recording ⟨State.RECORDING, 42, 1, 0, true⟩ 999 Event.OTHER
    rfl (by simp) (by simp)
  exact ⟨h.1, h.2 ⟨State.PRE, 0, 0, 0, false⟩ 5⟩

/-
Claim C2.  The spawn-once and join-before-Done parts hold, but the claim
also requires the capture thread to be joined before the process exits
when a quit event arrives while the state is still RECORDING — and lines
153-156 simply set STATE_QUIT and leave the loop, so `main` returns with
`record_thread` never joined (destroying a joinable std::thread, which
calls std::terminate).  The run below presses a key at tick 1000 and
closes the window at tick 2000: the loop exits with the one spawned
thread still alive and zero joins.
-/

/-- Claim C2 (failing part): when a quit event arrives during RECORDING,
the main loop exits with the spawned capture thread never joined — the
final session of the run [key-up at 1000, quit at 2000] has one spawn,
zero joins, and a still-alive thread. -/
theorem quit_while_recording_never_joins :
    mainLoop initialSession [⟨[Event.KEYUP], 1000⟩, ⟨[Event.QUIT], 2000⟩] =
      ⟨State.QUIT, 1000, 1, 0, true⟩ := by
  have h1 : (stepFrame initialSession ⟨[Event.KEYUP], 1000⟩).1 =
      ⟨State.RECORDING, 1000, 1, 0, true⟩ := by
    show (updateFrame ⟨State.RECORDING, 1000, 1, 0, true⟩ 1000).1 =
      ⟨State.RECORDING, 1000, 1, 0, true⟩
    rw [updateFrame_seg1 ⟨State.RECORDING, 1000, 1, 0, true⟩ 1000 rfl
          (by norm_num [elapsedSec])]
  have h2 : (stepFrame ⟨State.RECORDING, 1000, 1, 0, true⟩ ⟨[Event.QUIT], 2000⟩).1 =
      ⟨State.QUIT, 1000, 1, 0, true⟩ := by
    show (updateFrame ⟨State.QUIT, 1000, 1, 0, true⟩ 2000).1 =
      ⟨State.QUIT, 1000, 1, 0, true⟩
    rw [updateFrame_not_recording ⟨State.QUIT, 1000, 1, 0, true⟩ 2000
          (fun hh => State.noConfusion hh)]
  rw [mainLoop_cons _ _ _ (fun hh => State.noConfusion hh), h1,
      mainLoop_cons _ _ _ (fun hh => State.noConfusion hh), h2]
  rfl

/-
Claim C5.  Lines 132-145: each loop iteration reads `*pstate` exactly
once before any AcquireFrame call; a non-RECORDING read exits the loop
without acquiring.  In `mkObs c T n` the thread's i-th check executes at
time `c i`, the main thread leaves RECORDING at time `T`, and the
acquire/release pair of iteration i runs between the checks i and i+1.
The theorem: the loop acquires exactly while the checks read RECORDING
(the check crossing index k caps the count), and at most one performed
pair is not already finished by time `T`, namely the one whose follow-up
check is the first to observe the change.
-/

/-- An iteration whose check reads RECORDING with a clean status performs
one acquire and continues with the rest of the schedule. -/
lemma numAcquires_rec_head (rest : List (State × Int)) :
    numAcquires ((State.RECORDING, (0 : Int)) :: rest) = numAcquires rest + 1 := rfl

/-- An iteration whose check reads DONE exits without acquiring. -/
lemma numAcquires_done_head (z : Int) (rest : List (State × Int)) :
    numAcquires ((State.DONE, z) :: rest) = 0 := rfl

/-- Unfolding one iteration of the check schedule. -/
lemma mkObs_succ (c : Nat → Nat) (T n : Nat) :
    mkObs c T (n + 1) =
      ((if c 0 < T then State.RECORDING else State.DONE), (0 : Int)) ::
        mkObs (fun i => c (i + 1)) T n := rfl

/-- The number of AcquireFrame calls on the schedule `mkObs c T n` is the
number of checks that happen before the state change at time `T`. -/
lemma numAcquires_mkObs (T : Nat) :
    ∀ (n k : Nat) (c : Nat → Nat),
      (∀ i, i < k → c i < T) → (∀ i, k ≤ i → T ≤ c i) →
      numAcquires (mkObs c T n) = min k n := by
  intro n
  induction n with
  | zero =>
    intro k c _ _
    show 0 = min k 0
    rw [Nat.min_zero]
  | succ n ih =>
    intro k c h1 h2
    rw [mkObs_succ]
    cases k with
    | zero =>
      rw [if_neg (not_lt.mpr (h2 0 (Nat.zero_le 0))), numAcquires_done_head,
          Nat.zero_min]
    | succ k =>
      rw [if_pos (h1 0 (Nat.succ_pos k)), numAcquires_rec_head,
          ih k (fun i => c (i + 1)) (fun i hi => h1 (i + 1) (Nat.succ_lt_succ hi))
            (fun i hi => h2 (i + 1) (Nat.succ_le_succ hi))]
      exact (Nat.succ_min_succ k n).symm

/-- Claim C5: when the checks of the capture loop run at times `c 0, c 1,
...` and the main thread leaves RECORDING at time `T` (the first `k`
checks read RECORDING, the rest do not), the loop acquires exactly once
per pre-change check and exits at the first post-change check without
acquiring again; moreover at most one of the performed acquire/release
pairs extends past `T` (all others are complete before the next check,
which still precedes `T`). -/
theorem capture_loop_exit_and_one_extra_pair (c : Nat → Nat) (T n k : Nat)
    (h1 : ∀ i, i < k → c i < T) (h2 : ∀ i, k ≤ i → T ≤ c i) :
    numAcquires (mkObs c T n) = min k n ∧
    ∀ i j, i < numAcquires (mkObs c T n) → j < numAcquires (mkObs c T n) →
      T ≤ c (i + 1) → T ≤ c (j + 1) → i = j := by
  have hm := numAcquires_mkObs T n k c h1 h2
  refine ⟨hm, ?_⟩
  intro i j hi hj hti htj
  rw [hm] at hi hj
  have hik : i < k := lt_of_lt_of_le hi (min_le_left k n)
  have hjk : j < k := lt_of_lt_of_le hj (min_le_left k n)
  have hik2 : k ≤ i + 1 := not_lt.mp (fun hh => absurd (h1 (i + 1) hh) (not_lt.mpr hti))
  have hjk2 : k ≤ j + 1 := not_lt.mp (fun hh => absurd (h1 (j + 1) hh) (not_lt.mpr htj))
  exact Nat.succ_injective
    ((le_antisymm (Nat.succ_le_of_lt hik) hik2).trans
      (le_antisymm hjk2 (Nat.succ_le_of_lt hjk)))

/-- Witness for C5: checks every 10 ticks, state change at tick 25, a
5-iteration schedule: exactly 3 acquires happen. -/
theorem capture_loop_exit_witness :
    numAcquires (mkObs (fun i => i * 10) 25 5) = 3 :=
  (capture_loop_exit_and_one_extra_pair (fun i => i * 10) 25 5 3
    (fun i hi =>
      lt_of_le_of_lt (Nat.mul_le_mul_right 10 (Nat.lt_succ_iff.mp hi)) (by decide))
    (fun i hi =>
      le_trans (by decide) (Nat.mul_le_mul_right 10 hi))).1.trans (by decide)

/-
Claim C6.  pxc_verify (lines 213-222) shows a message box and returns
false only for a status below PXC_STATUS_NO_ERROR; a status above it
shows a warning box but returns true, so the loop (lines 139-144) goes on
to ReleaseFrame and the next iteration, while a fatal status makes it
break immediately after the acquire, with no retry.
-/

/-- Claim C6: a warning status (> 0) from AcquireFrame is reported via a
message box and the loop continues with the release and the next
iteration; a fatal status (< 0) terminates the loop right after the
acquire, with no further action. -/
theorem warnings_continue_fatal_stops (w f : Int) (rest : List (State × Int))
    (hw : 0 < w) (hf : f < 0) :
    (pxc_verify w).ok = true ∧ (pxc_verify w).boxShown = true ∧
    record_thread ((State.RECORDING, w) :: rest) =
      CapAction.check State.RECORDING :: CapAction.acquire w ::
        CapAction.release :: record_thread rest ∧
    (pxc_verify f).ok = false ∧
    record_thread ((State.RECORDING, f) :: rest) =
      [CapAction.check State.RECORDING, CapAction.acquire f] := by
  have hw2 : ¬ w < 0 := by omega
  refine ⟨?_, ?_, ?_, ?_, ?_⟩ <;>
    simp [pxc_verify, record_thread, hw, hf, hw2]

/-- Witness for C6 at the statuses +1 (warning) and -1 (fatal). -/
theorem warnings_continue_fatal_stops_witness :
    (pxc_verify 1).ok = true ∧ (pxc_verify 1).boxShown = true ∧
    record_thread [(State.RECORDING, 1)] =
      CapAction.check State.RECORDING :: CapAction.acquire 1 ::
        CapAction.release :: record_thread [] ∧
    (pxc_verify (-1)).ok = false ∧
    record_thread [(State.RECORDING, -1)] =
      [CapAction.check State.RECORDING, CapAction.acquire (-1)] :=
  warnings_continue_fatal_stops 1 (-1) [] (by norm_num) (by norm_num)

/-
Claim C7.  A fatal status on the very first acquire makes the loop break
after one acquire and no release; the main loop takes no input from the
capture thread at all, so the scripted 10-second run still reaches DONE
at the 10-second frame, joins there (the thread has long exited; joining
a finished thread succeeds), and quits on the next key press.
-/

/-- The scripted normal run ends in QUIT with one spawn and one join. -/
lemma normalRun_eval :
    mainLoop initialSession normalRunFrames = ⟨State.QUIT, 0, 1, 1, false⟩ := by
  have h1 : (stepFrame initialSession ⟨[Event.KEYUP], 0⟩).1 =
      ⟨State.RECORDING, 0, 1, 0, true⟩ := by
    show (updateFrame ⟨State.RECORDING, 0, 1, 0, true⟩ 0).1 =
      ⟨State.RECORDING, 0, 1, 0, true⟩
    rw [updateFrame_seg1 ⟨State.RECORDING, 0, 1, 0, true⟩ 0 rfl
          (by norm_num [elapsedSec])]
  have h2 : (stepFrame ⟨State.RECORDING, 0, 1, 0, true⟩ ⟨[], 5000⟩).1 =
      ⟨State.RECORDING, 0, 1, 0, true⟩ := by
    show (updateFrame ⟨State.RECORDING, 0, 1, 0, true⟩ 5000).1 =
      ⟨State.RECORDING, 0, 1, 0, true⟩
    rw [updateFrame_seg3 ⟨State.RECORDING, 0, 1, 0, true⟩ 5000 rfl
          (by norm_num [elapsedSec]) (by norm_num [elapsedSec])]
  have h3 : (stepFrame ⟨State.RECORDING, 0, 1, 0, true⟩ ⟨[], 10000⟩).1 =
      ⟨State.DONE, 0, 1, 1, false⟩ := by
    show (updateFrame ⟨State.RECORDING, 0, 1, 0, true⟩ 10000).1 =
      ⟨State.DONE, 0, 1, 1, false⟩
    rw [updateFrame_past ⟨State.RECORDING, 0, 1, 0, true⟩ 10000 rfl
          (by norm_num [elapsedSec])]
  have h4 : (stepFrame ⟨State.DONE, 0, 1, 1, false⟩ ⟨[Event.KEYUP], 11000⟩).1 =
      ⟨State.QUIT, 0, 1, 1, false⟩ := by
    show (updateFrame ⟨State.QUIT, 0, 1, 1, false⟩ 11000).1 =
      ⟨State.QUIT, 0, 1, 1, false⟩
    rw [updateFrame_not_recording ⟨State.QUIT, 0, 1, 1, false⟩ 11000
          (fun hh => State.noConfusion hh)]
  rw [normalRunFrames, mainLoop_cons _ _ _ (fun hh => State.noConfusion hh), h1,
      mainLoop_cons _ _ _ (fun hh => State.noConfusion hh), h2,
      mainLoop_cons _ _ _ (fun hh => State.noConfusion hh), h3,
      mainLoop_cons _ _ _ (fun hh => State.noConfusion hh), h4]
  rfl

/-- Claim C7: on a fatal first acquire the capture thread performs exactly
one acquire (whatever schedule would have followed) and exits; the main
thread's run is unchanged — the scripted 10-second run still transitions
to DONE at the 10-second frame, joins exactly once, and ends in QUIT. -/
theorem fatal_first_acquire_thread_exits_ui_unaffected (f : Int)
    (rest : List (State × Int)) (hf : f < 0) :
    record_thread ((State.RECORDING, f) :: rest) =
      [CapAction.check State.RECORDING, CapAction.acquire f] ∧
    numAcquires ((State.RECORDING, f) :: rest) = 1 ∧
    mainLoop initialSession normalRunFrames = ⟨State.QUIT, 0, 1, 1, false⟩ := by
  refine ⟨?_, ?_, normalRun_eval⟩ <;>
    simp [record_thread, numAcquires, pxc_verify, hf, isAcquire]

/-- Witness for C7 at the fatal status -3 with one more scheduled
iteration that is never reached. -/
theorem fatal_first_acquire_witness :
    record_thread [(State.RECORDING, -3), (State.RECORDING, 0)] =
      [CapAction.check State.RECORDING, CapAction.acquire (-3)] ∧
    numAcquires [(State.RECORDING, -3), (State.RECORDING, 0)] = 1 ∧
    mainLoop initialSession normalRunFrames = ⟨State.QUIT, 0, 1, 1, false⟩ :=
  fatal_first_acquire_thread_exits_ui_unaffected (-3) [(State.RECORDING, 0)] (by norm_num)

/-
Claim C8.  Lines 50-104: SDL, TTF and IMG init failures all return 1 (the
one "subsystem init" step), RealSense init returns 2, window creation 3,
font 4, text creation 5, image loading (surface or texture) 6; a run that
reaches the loop returns 0 from `main` (line 210).
-/

/-- Claim C8: each startup failure step exits with its own code — 1 for
subsystem init (all three subsystems), 2 for device init, 3 for window
creation, 4 and 5 for font/text creation, 6 for image loading — all in
1..6 and distinct across steps, and a run that reaches the main loop and
quits normally exits with code 0. -/
theorem startup_exit_codes_distinct_and_zero_on_success :
    mainStartup { allOk with sdlInitOk := false } = some 1 ∧
    mainStartup { allOk with ttfInitOk := false } = some 1 ∧
    mainStartup { allOk with imgInitPngOk := false } = some 1 ∧
    mainStartup { allOk with realsenseOk := false } = some 2 ∧
    mainStartup { allOk with windowOk := false } = some 3 ∧
    mainStartup { allOk with fontOk := false } = some 4 ∧
    mainStartup { allOk with textsOk := false } = some 5 ∧
    mainStartup { allOk with mrpointSurfOk := false } = some 6 ∧
    mainStartup { allOk with mrpointTexOk := false } = some 6 ∧
    mainStartup allOk = none ∧
    programExit allOk [⟨[Event.QUIT], 0⟩] = 0 ∧
    programExit { allOk with windowOk := false } [⟨[Event.QUIT], 0⟩] = 3 := by
  refine ⟨rfl, rfl, rfl, rfl, rfl, rfl, rfl, rfl, rfl, rfl, ?_, rfl⟩
  simp [programExit, mainStartup, allOk]

end GazeRec
